import Mathlib

/-!
Verification of the ESPP2 wrapper layer (CLI `espp2/espp2.py` and web
`espp2/web/main.py`) against its natural-language specification.

The two wrapper files are shallowly embedded below: control flow becomes
explicit case analysis, file writes become `Event`s accumulated in a trace,
Python runtime failures (UnboundLocalError, AttributeError) become values of
`RunError`, and HTTP exception responses become values of `HttpResult`.
Quantities and currency amounts are rationals; the `nan` sentinel the CLI
assigns to an unmatched wire's reporting-currency value is a dedicated
constructor of `NokVal`.

The core engine (`espp2.main.do_taxes`, the FIFO disposal matcher, the
pydantic holdings serializer, the four `do_holdings` strategies) is not part
of the repository files under verification; where a claim is about that core,
the definitions are modelled from the specification and carry a doc comment
saying so.
-/

namespace ESPP2

/-- The reporting-currency (`nok_value`) field of a wire record: either a
number or the floating not-a-number sentinel the CLI assigns to unmatched
wires (`w.nok_value = nan`). -/
inductive NokVal where
  | nan : NokVal
  | num : Rat → NokVal
deriving DecidableEq, Repr

/-- A bank wire record: date, amount in the trading currency (`value`), and
the reporting-currency amount (`nok_value`). -/
structure WireRecord where
  date : Nat
  value : Rat
  nok_value : NokVal
deriving DecidableEq, Repr

/-- One stock position of a holdings snapshot: symbol, acquisition date,
quantity and cost basis. -/
structure HoldingsStock where
  symbol : String
  date : Nat
  qty : Rat
  basis : Rat
deriving DecidableEq, Repr

/-- A holdings snapshot: the tax-year boundary and the list of positions. -/
structure Holdings where
  year : Nat
  stocks : List HoldingsStock
deriving DecidableEq, Repr

/-- The tax report object; the part the wrapper code inspects is its
`unmatched_wires` list. -/
structure TaxReportData where
  unmatched_wires : List WireRecord
deriving DecidableEq, Repr

/-- The non-`Holdings` result of `do_taxes` as the CLI consumes it: an object
carrying `report`, `holdings` and `summary` attributes. -/
structure ReportResult where
  report : TaxReportData
  holdings : Holdings
  summary : String
deriving DecidableEq, Repr

/-- The value `do_taxes` returns to the CLI: either a `Holdings` (the
`isinstance(result, Holdings)` branch) or a report-carrying result. -/
inductive DoTaxesResult where
  | holdingsRes : Holdings → DoTaxesResult
  | reportRes : ReportResult → DoTaxesResult
deriving DecidableEq, Repr

/-- The per-wire normalization the CLI applies before writing unmatched
wires out (`w.nok_value = nan; w.value = abs(w.value)`). -/
def processWire (w : WireRecord) : WireRecord :=
  { w with nok_value := NokVal.nan, value := |w.value| }

/-- Python runtime failures the CLI can hit after `do_taxes` returns:
reading a never-assigned local (`UnboundLocalError`) and reading a missing
attribute (`AttributeError`). -/
inductive RunError where
  | unboundLocal : String → RunError
  | attributeError : String → RunError
deriving DecidableEq, Repr

/-- The observable actions of the CLI after `do_taxes` returns: printing the
report and writing the three optional output files. -/
inductive Event where
  | printReport : Event
  | writeHoldings : Holdings → Event
  | writeWires : List WireRecord → Event
  | writeReport : Event
deriving DecidableEq, Repr

/-- The `if outholdings:` block of the CLI. The local `holdings` was assigned
only in the `isinstance(result, Holdings)` branch, so in the report case the
read of `holdings` raises `UnboundLocalError`. -/
def holdingsStep (result : DoTaxesResult) (evs : List Event) (outholdings : Bool) :
    List Event × Option RunError :=
  if outholdings then
    match result with
    | DoTaxesResult.holdingsRes h => (evs ++ [Event.writeHoldings h], none)
    | DoTaxesResult.reportRes _ => (evs, some (RunError.unboundLocal "holdings"))
  else (evs, none)

/-- The `if outwires and result.report.unmatched_wires:` block. When `result`
is a `Holdings` it has no `report` attribute; when the unmatched list is
empty (falsy) nothing is written; otherwise the sign-normalized wires are
written. -/
def wiresStep (result : DoTaxesResult) (evs : List Event) (outwires : Bool) :
    List Event × Option RunError :=
  if outwires then
    match result with
    | DoTaxesResult.holdingsRes _ => (evs, some (RunError.attributeError "report"))
    | DoTaxesResult.reportRes r =>
      if r.report.unmatched_wires.isEmpty then (evs, none)
      else (evs ++ [Event.writeWires (r.report.unmatched_wires.map processWire)], none)
  else (evs, none)

/-- The `if output:` block writing the tax report (`result.report.json()`);
again a `Holdings` result has no `report` attribute. -/
def outputStep (result : DoTaxesResult) (evs : List Event) (output : Bool) :
    List Event × Option RunError :=
  if output then
    match result with
    | DoTaxesResult.holdingsRes _ => (evs, some (RunError.attributeError "report"))
    | DoTaxesResult.reportRes _ => (evs ++ [Event.writeReport], none)
  else (evs, none)

/-- The CLI `main` after `do_taxes` returns: print the report in the
non-`Holdings` case, then run the three output blocks in order, stopping at
the first runtime error. The first component is the trace of actions that
happened before the run ended; the second is the error that ended it, if
any. -/
def mainRun (result : DoTaxesResult) (outholdings outwires output : Bool) :
    List Event × Option RunError :=
  let evs0 : List Event :=
    match result with
    | DoTaxesResult.holdingsRes _ => []
    | DoTaxesResult.reportRes _ => [Event.printReport]
  match holdingsStep result evs0 outholdings with
  | (evs1, some e) => (evs1, some e)
  | (evs1, none) =>
    match wiresStep result evs1 outwires with
    | (evs2, some e) => (evs2, some e)
    | (evs2, none) => outputStep result evs2 output

/-- Whether an event is a write of the wires file. -/
def isWriteWires : Event → Bool
  | Event.writeWires _ => true
  | _ => false

/-- Whether an event is the report printing. -/
def isPrintEvent : Event → Bool
  | Event.printReport => true
  | _ => false

/-- A wires file was written during the run. -/
def wiresWritten (run : List Event × Option RunError) : Bool :=
  run.1.any isWriteWires

/-- The report was printed during the run. -/
def printedReport (run : List Event × Option RunError) : Bool :=
  run.1.any isPrintEvent

/-- A sample unmatched wire: negative trading-currency amount, zero
reporting-currency amount. -/
def wSample : WireRecord :=
  { date := 20220314, value := -49985/10, nok_value := NokVal.num 0 }

/-- A sample report-carrying `do_taxes` result with one unmatched wire. -/
def reportSample : ReportResult :=
  { report := { unmatched_wires := [wSample] },
    holdings := { year := 2022, stocks := [] },
    summary := "summary" }

/-! ## The structured (JSON-like) holdings format

Modelled from the spec: the pydantic serializer behind `holdings.json()` /
`model_dump_json` and the parsing behind `parse_obj_as(Holdings, ...)` are
not in the repository files under verification; the spec requires a stable
field-named structured format whose snapshots round-trip between runs, so
the format is modelled as a JSON value tree with field-named objects. -/

/-- A JSON value: string, number, array or field-named object. -/
inductive Json where
  | str : String → Json
  | num : Rat → Json
  | arr : List Json → Json
  | obj : List (String × Json) → Json

/-- A JSON number read back as a natural number, when it is one. -/
def ratToNat (q : Rat) : Option Nat :=
  if q.den = 1 ∧ 0 ≤ q.num then some q.num.toNat else none

/-- Modelled from the spec: field-named serialization of one stock position. -/
def serializeStock (s : HoldingsStock) : Json :=
  Json.obj [("symbol", Json.str s.symbol), ("date", Json.num (s.date : Rat)),
            ("qty", Json.num s.qty), ("basis", Json.num s.basis)]

/-- Modelled from the spec: parsing of one serialized stock position. -/
def parseStock : Json → Option HoldingsStock
  | Json.obj [("symbol", Json.str sym), ("date", Json.num d),
              ("qty", Json.num q), ("basis", Json.num b)] =>
    match ratToNat d with
    | some n => some { symbol := sym, date := n, qty := q, basis := b }
    | none => none
  | _ => none

/-- Modelled from the spec: field-named serialization of a holdings
snapshot, as the CLI writes to `outholdings`. -/
def serializeHoldings (h : Holdings) : Json :=
  Json.obj [("year", Json.num (h.year : Rat)),
            ("stocks", Json.arr (h.stocks.map serializeStock))]

/-- Parse a list of serialized stock positions, failing if any one fails. -/
def parseStockList : List Json → Option (List HoldingsStock)
  | [] => some []
  | j :: rest =>
    match parseStock j, parseStockList rest with
    | some s, some ss => some (s :: ss)
    | _, _ => none

/-- Modelled from the spec: parsing of a holdings snapshot, as the CLI does
for the `opening_balance` input. -/
def parseHoldings : Json → Option Holdings
  | Json.obj [("year", Json.num y), ("stocks", Json.arr l)] =>
    match ratToNat y, parseStockList l with
    | some n, some ss => some { year := n, stocks := ss }
    | _, _ => none
  | _ => none

mutual

/-- Render a JSON value as text. -/
def jsonRender : Json → String
  | Json.str s => "\x22" ++ s ++ "\x22"
  | Json.num q => toString q
  | Json.arr l => "[" ++ jsonRenderArr l ++ "]"
  | Json.obj l => "\x7b" ++ jsonRenderObj l ++ "\x7d"

/-- Render the elements of a JSON array, comma separated. -/
def jsonRenderArr : List Json → String
  | [] => ""
  | [j] => jsonRender j
  | j :: rest => jsonRender j ++ ", " ++ jsonRenderArr rest

/-- Render the fields of a JSON object, comma separated. -/
def jsonRenderObj : List (String × Json) → String
  | [] => ""
  | [(k, j)] => "\x22" ++ k ++ "\x22: " ++ jsonRender j
  | (k, j) :: rest => "\x22" ++ k ++ "\x22: " ++ jsonRender j ++ ", " ++ jsonRenderObj rest

end

/-- The holdings snapshot as structured text, the first zip entry of the
web tax-report response. -/
def holdingsDump (h : Holdings) : String :=
  jsonRender (serializeHoldings h)

/-! ## Web layer (`espp2/web/main.py`) -/

/-- An uploaded file as the endpoints see it: its `filename` and the
underlying `file` handle (modelled by its content). -/
structure UploadFile where
  filename : String
  file : String
deriving DecidableEq, Repr

/-- The holdfile normalization both endpoints perform: an upload with an
empty filename becomes `None`; otherwise the underlying `file` handle is
passed on; no upload stays `None`. -/
def normalizeHoldfile : Option UploadFile → Option String
  | none => none
  | some u => if u.filename = "" then none else some u.file

/-- The 4-tuple `do_taxes` returns to the web tax-report endpoint
(`report, holdings, exceldata, summary`). -/
structure CoreSuccess where
  report : TaxReportData
  holdings : Holdings
  exceldata : String
  summary : String
deriving DecidableEq, Repr

/-- The response model of the tax-report endpoint. -/
structure ESPPResponse where
  tax_report : TaxReportData
  holdings : Holdings
  zip : List (String × String)
  summary : String
  log : String
deriving DecidableEq, Repr

/-- The outcome of an endpoint: a normal response value, or an
`HTTPException` value carrying a status code and the error detail, handed
to the framework to render as an error response. -/
inductive HttpResult (α : Type) where
  | ok : α → HttpResult α
  | httpException : Nat → String → HttpResult α
deriving DecidableEq, Repr

/-- The list of named entries handed to `get_zipdata` by the tax-report
endpoint: the holdings snapshot as structured text and the portfolio
spreadsheet. -/
def taxreportZipEntries (year : Nat) (holdings : Holdings) (exceldata : String) :
    List (String × String) :=
  [("espp-holdings-" ++ toString year ++ ".json", holdingsDump holdings),
   ("espp-portfolio-" ++ toString year ++ ".xlsx", exceldata)]

/-- The successful response the tax-report endpoint builds from the core's
4-tuple: the report, holdings and summary verbatim, the zip bundle from
`taxreportZipEntries`, and the captured log text. -/
def taxreportRespond (year : Nat) (log : String) (s : CoreSuccess) : ESPPResponse :=
  { tax_report := s.report, holdings := s.holdings,
    zip := taxreportZipEntries year s.holdings s.exceldata,
    summary := s.summary, log := log }

/-- The `/taxreport/` endpoint around its single `do_taxes` call. The core
is modelled as the sequence of results successive invocations would return;
the endpoint makes exactly the invocation at index 0, and on an exception
returns `HTTPException(500, str(e))` as a value. -/
def taxreport (year : Nat) (log : String) (holdfile : Option UploadFile)
    (core : Nat → Option String → Except String CoreSuccess) :
    HttpResult ESPPResponse :=
  match core 0 (normalizeHoldfile holdfile) with
  | Except.error e => HttpResult.httpException 500 e
  | Except.ok s => HttpResult.ok (taxreportRespond year log s)

/-- The `/holdings_1/` endpoint around its single `do_holdings_1` call,
modelled like `taxreport`. -/
def generate_holdings_1 (holdfile : Option UploadFile)
    (core : Nat → Option String → Except String Holdings) : HttpResult Holdings :=
  match core 0 (normalizeHoldfile holdfile) with
  | Except.error e => HttpResult.httpException 500 e
  | Except.ok h => HttpResult.ok h

/-- A core that fails on every invocation, for concrete runs. -/
def coreFail : Nat → Option String → Except String CoreSuccess :=
  fun _ _ => Except.error "file not found"

/-- A holdings core that fails on every invocation, for concrete runs. -/
def coreHFail : Nat → Option String → Except String Holdings :=
  fun _ _ => Except.error "file not found"

/-- A sample successful core 4-tuple. -/
def coreSuccessSample : CoreSuccess :=
  { report := { unmatched_wires := [] },
    holdings := { year := 2022, stocks := [] },
    exceldata := "XLSXBYTES", summary := "ok" }

/-! ## The core engine, modelled from the spec

The lot ledger, the FIFO disposal matcher and the four holdings
reconstruction strategies live in `espp2.main`, which is not among the
repository files under verification; they are modelled here from the
specification sections on the Lot Ledger, the Disposal Matcher and the
Holdings Reconstructor. -/

/-- An acquisition lot: date, remaining quantity, per-unit cost basis. -/
structure Lot where
  date : Nat
  qty : Rat
  basis : Rat
deriving DecidableEq, Repr

/-- Modelled from the spec: the FIFO disposal matcher of §4.2 (the Disposal
Matcher in `espp2.main`, not in the files under verification). Matches a
sale quantity against a ledger ordered acquisition-date ascending: exhaust
the earliest-dated lot's remaining quantity before consuming the next,
splitting a lot when the sale ends inside it. Returns the list of (lot,
quantity consumed from it) pairs and the remaining ledger, or `none`
(`InsufficientLotsError`) when the sale exceeds the total available
quantity. -/
def fifoConsume : List Lot → Rat → Option (List (Lot × Rat) × List Lot)
  | [], q => if q ≤ 0 then some ([], []) else none
  | l :: rest, q =>
    if q ≤ 0 then some ([], l :: rest)
    else if q < l.qty then some ([(l, q)], { l with qty := l.qty - q } :: rest)
    else if q = l.qty then some ([(l, q)], rest)
    else
      match fifoConsume rest (q - l.qty) with
      | none => none
      | some (cs, rem) => some ((l, l.qty) :: cs, rem)

/-- A normalized transaction event, as the reconstruction strategies replay
them: an acquisition (date, quantity, per-unit basis) or a sale (date,
quantity). -/
inductive Txn where
  | deposit : Nat → Rat → Rat → Txn
  | sale : Nat → Rat → Txn
deriving DecidableEq, Repr

/-- Modelled from the spec: chronological replay of transaction events into
a ledger; a sale that cannot be covered signals `IncompleteHistoryError`. -/
def replay : List Txn → List Lot → Except String (List Lot)
  | [], ledger => Except.ok ledger
  | Txn.deposit d q b :: rest, ledger =>
    replay rest (ledger ++ [{ date := d, qty := q, basis := b }])
  | Txn.sale _ q :: rest, ledger =>
    match fifoConsume ledger q with
    | none => Except.error "IncompleteHistoryError"
    | some (_, rem) => replay rest rem

/-- Total quantity held across a ledger. -/
def totalQty (ledger : List Lot) : Rat :=
  (ledger.map Lot.qty).sum

/-- Modelled from the spec: strategy 1, full-history replay into an empty
ledger. -/
def do_holdings_1 (txs : List Txn) : Except String (List Lot) :=
  replay txs []

/-- Modelled from the spec: strategy 2, prior holdings snapshot seeding the
ledger, incremental history replayed on top. -/
def do_holdings_2 (prior : List Lot) (txs : List Txn) : Except String (List Lot) :=
  replay txs prior

/-- Modelled from the spec: strategy 3, incremental replay validated against
an expected balance; a mismatch signals `BalanceMismatchError`. -/
def do_holdings_3 (txs : List Txn) (expected : Rat) : Except String (List Lot) :=
  match replay txs [] with
  | Except.ok ledger =>
    if totalQty ledger = expected then Except.ok ledger
    else Except.error "BalanceMismatchError"
  | Except.error e => Except.error e

/-- Modelled from the spec: strategy 4, single-file authoritative replay
(relaxed schema, same replay semantics as strategy 1). -/
def do_holdings_4 (txs : List Txn) : Except String (List Lot) :=
  replay txs []

/-- The 2020-01-01 lot of the spec's FIFO example: quantity 10, basis 100. -/
def lot2020 : Lot := { date := 20200101, qty := 10, basis := 100 }

/-- The 2021-01-01 lot of the spec's FIFO example: quantity 10, basis 150. -/
def lot2021 : Lot := { date := 20210101, qty := 10, basis := 150 }

/-- A core that succeeds with `coreSuccessSample` on every invocation. -/
def coreOk : Nat → Option String → Except String CoreSuccess :=
  fun _ _ => Except.ok coreSuccessSample

/-- An uploaded prior-holdings file whose filename is empty. -/
def uploadEmptyName : UploadFile := { filename := "", file := "HOLDDATA" }

/-! ## Theorems -/

/-- C9: in the CLI `main`, the local `holdings` is assigned only when
`do_taxes` returns a `Holdings`; with an `outholdings` destination and a
non-`Holdings` result the run has printed the report and then fails with
`UnboundLocalError` at the holdings write, and the report-printing branch
runs exactly in the non-`Holdings` case. -/
theorem cli_holdings_unbound (r : ReportResult) (ow o : Bool) :
    mainRun (DoTaxesResult.reportRes r) true ow o
      = ([Event.printReport], some (RunError.unboundLocal "holdings")) ∧
    (∀ hd : Holdings, ∀ oh o2 : Bool,
        printedReport (mainRun (DoTaxesResult.holdingsRes hd) oh ow o2) = false) ∧
    printedReport (mainRun (DoTaxesResult.reportRes r) false ow o) = true := by
  refine ⟨?_, ?_, ?_⟩
  · simp [mainRun, holdingsStep]
  · intro hd oh o2
    cases oh <;> cases ow <;> cases o2 <;>
      simp [mainRun, holdingsStep, wiresStep, outputStep, printedReport, isPrintEvent]
  · rcases hE : r.report.unmatched_wires.isEmpty <;> cases ow <;> cases o <;>
      simp [mainRun, holdingsStep, wiresStep, outputStep, printedReport, isPrintEvent, hE]

/-- C2 (the failing input): with an `outholdings` destination, an `outwires`
destination and a report result whose unmatched-wires list is non-empty, the
run aborts with `UnboundLocalError` at the holdings write and no wires file
is written, although the unmatched list is non-empty and a wires destination
was supplied. -/
theorem cli_wires_skipped_on_crash :
    (mainRun (DoTaxesResult.reportRes reportSample) true true false).2
      = some (RunError.unboundLocal "holdings") ∧
    wiresWritten (mainRun (DoTaxesResult.reportRes reportSample) true true false) = false ∧
    reportSample.report.unmatched_wires ≠ [] := by
  refine ⟨?_, ?_, ?_⟩ <;>
    simp [mainRun, holdingsStep, wiresWritten, isWriteWires, reportSample]

/-- C1: every wires file the CLI writes holds exactly the report's unmatched
wires, each with its `value` replaced by its absolute value and its
`nok_value` set to the not-a-number sentinel, not to zero. -/
theorem cli_outwires_normalized (result : DoTaxesResult) (oh ow o : Bool)
    (ws : List WireRecord)
    (h : Event.writeWires ws ∈ (mainRun result oh ow o).1) :
    ∃ r, result = DoTaxesResult.reportRes r ∧
      ws = r.report.unmatched_wires.map processWire ∧
      ∀ w ∈ r.report.unmatched_wires,
        (processWire w).value = |w.value| ∧
        (processWire w).nok_value = NokVal.nan ∧
        (processWire w).nok_value ≠ NokVal.num 0 := by
  cases result with
  | holdingsRes hd =>
    exfalso
    cases oh <;> cases ow <;> cases o <;>
      simp [mainRun, holdingsStep, wiresStep, outputStep] at h
  | reportRes r =>
    refine ⟨r, rfl, ?_, fun w _ => ⟨rfl, rfl, by simp [processWire]⟩⟩
    rcases hE : r.report.unmatched_wires.isEmpty <;> cases oh <;> cases ow <;> cases o <;>
      simp [mainRun, holdingsStep, wiresStep, outputStep, hE] at h <;>
      exact h

/-- C1 witness: a concrete run with one unmatched wire of negative value. -/
theorem cli_outwires_normalized_witness :
    ∃ r, DoTaxesResult.reportRes reportSample = DoTaxesResult.reportRes r ∧
      [processWire wSample] = r.report.unmatched_wires.map processWire ∧
      ∀ w ∈ r.report.unmatched_wires,
        (processWire w).value = |w.value| ∧
        (processWire w).nok_value = NokVal.nan ∧
        (processWire w).nok_value ≠ NokVal.num 0 :=
  cli_outwires_normalized (DoTaxesResult.reportRes reportSample) false true false
    [processWire wSample]
    (by simp [mainRun, holdingsStep, wiresStep, outputStep, reportSample])

/-- C3 counterexample: on a concrete successful request the downloadable
bundle holds exactly two entries, the holdings snapshot and the portfolio
spreadsheet; it has no third entry, so it does not contain the tax report. -/
theorem taxreport_bundle_two_entries_cex :
    ((taxreportRespond 2022 "log" coreSuccessSample).zip.map Prod.fst
      = ["espp-holdings-2022.json", "espp-portfolio-2022.xlsx"]) ∧
    (taxreportRespond 2022 "log" coreSuccessSample).zip.length = 2 := by
  constructor <;> rfl

/-- C3 as amended: on every successful request the bundle holds exactly the
holdings snapshot as structured text and the tabular portfolio export, and
the tax report is returned alongside in the response, outside the bundle. -/
theorem taxreport_bundle_exact (year : Nat) (log : String) (s : CoreSuccess)
    (hf : Option UploadFile)
    (core : Nat → Option String → Except String CoreSuccess)
    (hc : core 0 (normalizeHoldfile hf) = Except.ok s) :
    taxreport year log hf core = HttpResult.ok (taxreportRespond year log s) ∧
    (taxreportRespond year log s).zip
      = [("espp-holdings-" ++ toString year ++ ".json", holdingsDump s.holdings),
         ("espp-portfolio-" ++ toString year ++ ".xlsx", s.exceldata)] ∧
    (taxreportRespond year log s).tax_report = s.report := by
  refine ⟨?_, rfl, rfl⟩
  simp [taxreport, hc]

/-- C3 witness: the amended bundle contents at a concrete request. -/
theorem taxreport_bundle_exact_witness :
    taxreport 2022 "log" none coreOk
      = HttpResult.ok (taxreportRespond 2022 "log" coreSuccessSample) ∧
    (taxreportRespond 2022 "log" coreSuccessSample).zip
      = [("espp-holdings-" ++ toString 2022 ++ ".json",
          holdingsDump coreSuccessSample.holdings),
         ("espp-portfolio-" ++ toString 2022 ++ ".xlsx",
          coreSuccessSample.exceldata)] ∧
    (taxreportRespond 2022 "log" coreSuccessSample).tax_report
      = coreSuccessSample.report :=
  taxreport_bundle_exact 2022 "log" coreSuccessSample none coreOk rfl

/-- C4: when the core computation of the tax-report or holdings-1 endpoint
fails, the endpoint returns the `HTTPException` value with status 500 and
the error description as its detail; the endpoint makes exactly one core
invocation (its outcome depends only on the invocation at index 0, so the
computation is never retried), and every outcome is a returned value. -/
theorem endpoints_error_value_outcome
    (year : Nat) (log : String) (hf : Option UploadFile)
    (core core2 : Nat → Option String → Except String CoreSuccess)
    (coreH coreH2 : Nat → Option String → Except String Holdings)
    (msg msgH : String)
    (h1 : core 0 (normalizeHoldfile hf) = Except.error msg)
    (h2 : coreH 0 (normalizeHoldfile hf) = Except.error msgH)
    (h3 : core 0 = core2 0) (h4 : coreH 0 = coreH2 0) :
    taxreport year log hf core = HttpResult.httpException 500 msg ∧
    generate_holdings_1 hf coreH = HttpResult.httpException 500 msgH ∧
    taxreport year log hf core = taxreport year log hf core2 ∧
    generate_holdings_1 hf coreH = generate_holdings_1 hf coreH2 := by
  refine ⟨?_, ?_, ?_, ?_⟩ <;>
    simp [taxreport, generate_holdings_1, h1, h2, ← h3, ← h4]

/-- C4 witness: both endpoints at a concrete always-failing core. -/
theorem endpoints_error_value_outcome_witness :
    taxreport 2022 "log" none coreFail
      = HttpResult.httpException 500 "file not found" ∧
    generate_holdings_1 none coreHFail
      = HttpResult.httpException 500 "file not found" ∧
    taxreport 2022 "log" none coreFail = taxreport 2022 "log" none coreFail ∧
    generate_holdings_1 none coreHFail = generate_holdings_1 none coreHFail :=
  endpoints_error_value_outcome 2022 "log" none coreFail coreFail coreHFail coreHFail
    "file not found" "file not found" rfl rfl rfl rfl

/-- C10: an uploaded prior-holdings file with an empty filename is
normalized to `None`, so the tax-report and holdings-1 endpoints process the
request exactly as if no prior-holdings file had been supplied. -/
theorem empty_filename_as_absent (u : UploadFile) (hu : u.filename = "")
    (year : Nat) (log : String)
    (core : Nat → Option String → Except String CoreSuccess)
    (coreH : Nat → Option String → Except String Holdings) :
    normalizeHoldfile (some u) = none ∧
    taxreport year log (some u) core = taxreport year log none core ∧
    generate_holdings_1 (some u) coreH = generate_holdings_1 none coreH := by
  refine ⟨?_, ?_, ?_⟩ <;> simp [normalizeHoldfile, hu, taxreport, generate_holdings_1]

/-- C10 witness: a concrete upload with an empty filename. -/
theorem empty_filename_as_absent_witness :
    normalizeHoldfile (some uploadEmptyName) = none ∧
    taxreport 2022 "log" (some uploadEmptyName) coreOk
      = taxreport 2022 "log" none coreOk ∧
    generate_holdings_1 (some uploadEmptyName) coreHFail
      = generate_holdings_1 none coreHFail :=
  empty_filename_as_absent uploadEmptyName rfl 2022 "log" coreOk coreHFail

/-- C7: each of the four holdings-reconstruction strategies is a pure
function of its inputs: on equal inputs, two runs return identical lot
ledgers (the same quantities, dates, bases and ordering, as equality of the
lot lists). -/
theorem strategies_deterministic (t1 t2 : List Txn) (p1 p2 : List Lot) (e1 e2 : Rat)
    (ht : t1 = t2) (hp : p1 = p2) (he : e1 = e2) :
    do_holdings_1 t1 = do_holdings_1 t2 ∧
    do_holdings_2 p1 t1 = do_holdings_2 p2 t2 ∧
    do_holdings_3 t1 e1 = do_holdings_3 t2 e2 ∧
    do_holdings_4 t1 = do_holdings_4 t2 := by
  subst ht; subst hp; subst he
  exact ⟨rfl, rfl, rfl, rfl⟩

/-- C7 witness: the four strategies re-run on a concrete input set. -/
theorem strategies_deterministic_witness :
    do_holdings_1 [Txn.deposit 20200101 10 100]
      = do_holdings_1 [Txn.deposit 20200101 10 100] ∧
    do_holdings_2 [lot2020] [Txn.deposit 20200101 10 100]
      = do_holdings_2 [lot2020] [Txn.deposit 20200101 10 100] ∧
    do_holdings_3 [Txn.deposit 20200101 10 100] 10
      = do_holdings_3 [Txn.deposit 20200101 10 100] 10 ∧
    do_holdings_4 [Txn.deposit 20200101 10 100]
      = do_holdings_4 [Txn.deposit 20200101 10 100] :=
  strategies_deterministic [Txn.deposit 20200101 10 100] [Txn.deposit 20200101 10 100]
    [lot2020] [lot2020] 10 10 rfl rfl rfl

/-- Reading back a natural number serialized as a JSON number recovers it. -/
theorem ratToNat_natCast (n : Nat) : ratToNat (n : Rat) = some n := by
  simp [ratToNat, Rat.den_natCast, Rat.num_natCast, Int.toNat_natCast,
    Int.natCast_nonneg]

/-- Parsing a serialized stock position recovers it. -/
theorem parseStock_serializeStock (s : HoldingsStock) :
    parseStock (serializeStock s) = some s := by
  simp [parseStock, serializeStock, ratToNat_natCast]

/-- Parsing a list of serialized stock positions recovers the list. -/
theorem parseStockList_map (l : List HoldingsStock) :
    parseStockList (l.map serializeStock) = some l := by
  induction l with
  | nil => rfl
  | cons s rest ih => simp [parseStockList, parseStock_serializeStock, ih]

/-- C6: holdings snapshots round-trip through the structured field-named
format: parsing a serialized snapshot yields the original `Holdings`
value. -/
theorem holdings_roundtrip (h : Holdings) :
    parseHoldings (serializeHoldings h) = some h := by
  simp [parseHoldings, serializeHoldings, ratToNat_natCast, parseStockList_map]

/-- C5: FIFO disposal matching consumes lots oldest-first: the consumed lots
are the leading lots of the ledger in order, every consumed lot except
possibly the last is fully exhausted, and no lot yields more than its
remaining quantity. -/
theorem fifo_oldest_first (lots : List Lot) (q : Rat)
    (cs : List (Lot × Rat)) (rem : List Lot)
    (h : fifoConsume lots q = some (cs, rem)) :
    lots.take cs.length = cs.map Prod.fst ∧
    (∀ p ∈ cs.dropLast, p.2 = p.1.qty) ∧
    (∀ p ∈ cs, p.2 ≤ p.1.qty) := by
  induction lots generalizing q cs rem with
  | nil =>
    rw [fifoConsume] at h
    split at h
    · simp only [Option.some.injEq, Prod.mk.injEq] at h
      obtain ⟨rfl, rfl⟩ := h.symm
      simp
    · exact absurd h (by simp)
  | cons l rest ih =>
    rw [fifoConsume] at h
    split at h
    · simp only [Option.some.injEq, Prod.mk.injEq] at h
      obtain ⟨rfl, rfl⟩ := h.symm
      simp
    · split at h
      · simp only [Option.some.injEq, Prod.mk.injEq] at h
        obtain ⟨rfl, rfl⟩ := h.symm
        rename_i hq hlt
        exact ⟨by simp, by simp, by simpa using le_of_lt hlt⟩
      · split at h
        · simp only [Option.some.injEq, Prod.mk.injEq] at h
          obtain ⟨rfl, rfl⟩ := h.symm
          rename_i hq hlt heq
          exact ⟨by simp, by simp, by simpa using le_of_eq heq⟩
        · rename_i hq hlt heq
          cases hrec : fifoConsume rest (q - l.qty) with
          | none => rw [hrec] at h; exact absurd h (by simp)
          | some pr =>
            obtain ⟨cs2, rem2⟩ := pr
            rw [hrec] at h
            simp only [Option.some.injEq, Prod.mk.injEq] at h
            obtain ⟨rfl, rfl⟩ := h.symm
            obtain ⟨ih1, ih2, ih3⟩ := ih (q - l.qty) cs2 rem2 hrec
            refine ⟨?_, ?_, ?_⟩
            · simpa [List.take_succ_cons] using ih1
            · intro p hp
              rcases cs2 with _ | ⟨c0, cs3⟩
              · simp at hp
              · rw [List.dropLast_cons_of_ne_nil (by simp)] at hp
                rcases List.mem_cons.mp hp with hpe | hpm
                · rw [hpe]
                · exact ih2 p hpm
            · intro p hp
              rcases List.mem_cons.mp hp with hpe | hpm
              · rw [hpe]
              · exact ih3 p hpm

/-- C5 witness: the spec's example — lots dated 2020-01-01 (qty 10) and
2021-01-01 (qty 10); a sale of 15 consumes all 10 units of the 2020 lot and
exactly 5 units of the 2021 lot, leaving 5 units of the 2021 lot. -/
theorem fifo_oldest_first_witness :
    fifoConsume [lot2020, lot2021] 15
      = some ([(lot2020, 10), (lot2021, 5)],
              [{ date := 20210101, qty := 5, basis := 150 }]) ∧
    ([lot2020, lot2021].take ([(lot2020, (10 : Rat)), (lot2021, 5)].length)
        = [(lot2020, (10 : Rat)), (lot2021, 5)].map Prod.fst ∧
      (∀ p ∈ [(lot2020, (10 : Rat)), (lot2021, 5)].dropLast, p.2 = p.1.qty) ∧
      (∀ p ∈ [(lot2020, (10 : Rat)), (lot2021, 5)], p.2 ≤ p.1.qty)) :=
  ⟨by norm_num [fifoConsume, lot2020, lot2021],
   fifo_oldest_first [lot2020, lot2021] 15 [(lot2020, 10), (lot2021, 5)]
     [{ date := 20210101, qty := 5, basis := 150 }]
     (by norm_num [fifoConsume, lot2020, lot2021])⟩

end ESPP2
